import Mathlib

/-!
Shallow embedding of the `fljx/ring_buffer` C headers
(`src/include/ring_buffer.h`, `src/include/ring_buffer_string.h`).

Modelling decisions, traceable to the source:
* `index_t` is `uint32_t`; the counters `input` and `output` are modelled as
  natural numbers and every increment is taken modulo `INDEX_MOD = 2^32`,
  matching unsigned overflow of the counter type.
* `size_t` is 64 bits wide; the pre-decrement `--limit` in the
  `pop_cstring` loops wraps at `SIZE_MOD = 2^64` (see `size_pred`).
* The storage array `TYPE data_buffer[LEN]` is a `List T`; the capacity is
  its length (the C macros compute it with `ARRAY_COUNT`).  In-bounds reads
  use `List.getD` with default `0`; the C code only reads indices already
  masked by `RINGBUF_WRAP`, which are in bounds whenever the length is a
  positive power of two, so the default value is never seen in those cases.
* The push callback receives the buffer fields and the candidate value and
  returns the (possibly rewritten) storage together with the accept flag.
  This reflects the spec: the strategy maps (buffer, value) to accepted?,
  and may write into storage as a side effect even when rejecting.
* The destination array `dest` of the bulk pops is modelled as the list of
  elements the function actually writes, in write order.  A write of the
  zero terminator appears as a final `0` element of that list; when the C
  code returns without touching `dest`, the list is empty.
* The bulk loops are modelled by structural recursion on the number of
  remaining permitted iterations.  For `limit-- && count(rb)` (post
  decrement, in `pop_string`) that number is `limit`; for
  `--limit && count(rb)` (pre decrement, in `pop_cstring` and
  `pop_cstring_cond`) it is `size_pred limit`, which wraps to
  `2^64 - 1` when `limit = 0`, exactly as the unsigned C pre-decrement does.
* `push_string` is embedded exactly as the macro text stands, including the
  loop condition `len && NAME_full( rb )`, which tests `full` rather than
  `not full`; the source elements are read from the array parameter (the
  macro body names it `src` while the declared parameter is `data`, so the
  macro as written does not even compile; the loop body evidently intends
  successive source elements).
-/

namespace RingBufferSpec

/-- Modulus of the `index_t` (`uint32_t`) counters: 2^32. -/
def INDEX_MOD : Nat := 4294967296

/-- Modulus of `size_t` values: 2^64. -/
def SIZE_MOD : Nat := 18446744073709551616

/-- Control structure generated by `ringbuffer_type_def( NAME, TYPE, LEN )`:
fields `input`, `output`, `data_buffer[ LEN ]` and `push_callback`. -/
structure RingBuffer (T : Type) where
  input : Nat
  output : Nat
  data_buffer : List T
  push_callback : Option (Nat → Nat → List T → T → List T × Bool)

namespace RingBuffer

variable {T : Type}

/-- Macro `BUFFER_LEN( NAME )`: the element capacity of the storage array. -/
def BUFFER_LEN (rb : RingBuffer T) : Nat := rb.data_buffer.length

/-- Macro `RINGBUF_WRAP( rb, index )`:
`( index ) & ( ARRAY_COUNT( ( rb )->data_buffer ) - 1 )`. -/
def RINGBUF_WRAP (rb : RingBuffer T) (index : Nat) : Nat :=
  index &&& (rb.BUFFER_LEN - 1)

/-- Function `NAME_count`: `return ( rb->input - rb->output );` computed in
32-bit unsigned arithmetic and widened to `size_t`. -/
def count (rb : RingBuffer T) : Nat :=
  (rb.input % INDEX_MOD + INDEX_MOD - rb.output % INDEX_MOD) % INDEX_MOD

/-- Function `NAME_empty`: `return 0 == NAME_count( rb );`. -/
def empty (rb : RingBuffer T) : Bool := 0 == rb.count

/-- Function `NAME_full`: `return NAME_count( rb ) == BUFFER_LEN( NAME );`. -/
def full (rb : RingBuffer T) : Bool := rb.count == rb.BUFFER_LEN

/-- Function `NAME_init`: resets both indices to zero and records the
callback. -/
def init (rb : RingBuffer T)
    (cb : Option (Nat → Nat → List T → T → List T × Bool)) : RingBuffer T :=
  { rb with input := 0, output := 0, push_callback := cb }

/-- Function `NAME_push_front`: fail if full; otherwise consult the
callback when present (its storage writes persist even on rejection),
or store directly at `RINGBUF_WRAP( rb, rb->input )`; on success advance
`input` and return true. -/
def push_front (rb : RingBuffer T) (data : T) : RingBuffer T × Bool :=
  if rb.full then (rb, false)
  else
    match rb.push_callback with
    | some cb =>
      let r := cb rb.input rb.output rb.data_buffer data
      if r.2 then
        ({ rb with data_buffer := r.1, input := (rb.input + 1) % INDEX_MOD }, true)
      else
        ({ rb with data_buffer := r.1 }, false)
    | none =>
      ({ rb with
          data_buffer := rb.data_buffer.set (rb.RINGBUF_WRAP rb.input) data,
          input := (rb.input + 1) % INDEX_MOD }, true)

/-- Function `NAME_pop_back`: fail if empty, else `rb->output++` only. -/
def pop_back (rb : RingBuffer T) : RingBuffer T × Bool :=
  if rb.empty then (rb, false)
  else ({ rb with output := (rb.output + 1) % INDEX_MOD }, true)

/-- Function `NAME_peek`: if `NAME_count( rb ) > offset` return a pointer to
`rb->data_buffer[ RINGBUF_WRAP( rb, rb->output + offset ) ]`, else `NULL`.
The sum `rb->output + offset` is a `uint32_t` addition, hence the
`% INDEX_MOD`.  The embedding returns the referenced value; the C function
only reads the buffer, so non-mutation holds by construction. -/
def peek [Zero T] (rb : RingBuffer T) (offset : Nat) : Option T :=
  if rb.count > offset then
    some (rb.data_buffer.getD (rb.RINGBUF_WRAP ((rb.output + offset) % INDEX_MOD)) 0)
  else none

/-- Loop of `NAME_push_string` as the macro text stands:
`for ( ; len && NAME_full( rb ); rb->input++, --len )` with body
`RINGBUF_CURR_i( rb ) = src[ count++ ];`.  Note the condition tests
`full`, not `not full`.  Arguments: source array, then buffer, the running
`count`, and the remaining `len`. -/
def push_string_go [Zero T] (data : List T) :
    RingBuffer T → Nat → Nat → RingBuffer T × Nat
  | rb, cnt, 0 => (rb, cnt)
  | rb, cnt, len + 1 =>
    if rb.full then
      push_string_go data
        { rb with
            data_buffer := rb.data_buffer.set (rb.RINGBUF_WRAP rb.input) (data.getD cnt 0),
            input := (rb.input + 1) % INDEX_MOD }
        (cnt + 1) len
    else (rb, cnt)

/-- Function `NAME_push_string`: `size_t count = 0;` then the loop above;
returns the final buffer and `count`. -/
def push_string [Zero T] (rb : RingBuffer T) (data : List T) (len : Nat) :
    RingBuffer T × Nat :=
  push_string_go data rb 0 len

/-- Shared loop of `NAME_pop_string` / `NAME_pop_cstring`:
`for ( ; <limit test> && NAME_count( rb ); rb->output++ )` with body
`dest[ count++ ] = RINGBUF_CURR_o( rb );`.  The `Nat` argument is the
number of iterations the limit test still permits: the post-decrement
`limit--` of `pop_string` permits `limit` iterations, the pre-decrement
`--limit` of `pop_cstring` permits `size_pred limit` iterations.  The
accumulator is the sequence of writes into `dest` so far. -/
def pop_go [Zero T] : RingBuffer T → Nat → List T → RingBuffer T × List T
  | rb, 0, acc => (rb, acc)
  | rb, l + 1, acc =>
    if rb.count = 0 then (rb, acc)
    else
      pop_go { rb with output := (rb.output + 1) % INDEX_MOD } l
        (acc ++ [rb.data_buffer.getD (rb.RINGBUF_WRAP rb.output) 0])

/-- Function `NAME_pop_string`: early return 0 when empty, else the loop
guarded by `limit-- && NAME_count( rb )`; result is the final buffer, the
writes into `dest`, and the returned `count`. -/
def pop_string [Zero T] (rb : RingBuffer T) (limit : Nat) :
    RingBuffer T × List T × Nat :=
  if rb.empty then (rb, [], 0)
  else
    let r := pop_go rb limit []
    (r.1, r.2, r.2.length)

/-- Wrapping pre-decrement of a 64-bit unsigned `limit`: `--limit` used in
the loop conditions of both cstring pops. -/
def size_pred (limit : Nat) : Nat :=
  if limit = 0 then SIZE_MOD - 1 else limit - 1

/-- Function `NAME_pop_cstring`: early return 0 when empty (note: without
writing any terminator), else the loop guarded by
`--limit && NAME_count( rb )`, then `dest[ count ] = ( TYPE )0;`. -/
def pop_cstring [Zero T] (rb : RingBuffer T) (limit : Nat) :
    RingBuffer T × List T × Nat :=
  if rb.empty then (rb, [], 0)
  else
    let r := pop_go rb (size_pred limit) []
    (r.1, r.2 ++ [(0 : T)], r.2.length)

/-- The two behaviours usable as `BEHAV` in
`ringbuffer_pop_cstring_cond_def`: `continue` (skip) or `break` (halt). -/
inductive CondBehav : Type where
  | cskip : CondBehav
  | chalt : CondBehav

/-- Loop of `NAME_pop_string_SUFFIX` (macro
`ringbuffer_pop_cstring_cond_def`): like `pop_go`, but the expansion of
`PASTE_cond( COND, BEHAV )` runs before the copy: when `COND` holds of the
current oldest element, `continue` jumps to `rb->output++` and the next
`--limit` test (element consumed, not copied), while `break` leaves the
loop at once (element neither consumed nor copied). -/
def pop_cond_go [Zero T] (cond : T → Bool) (behav : CondBehav) :
    RingBuffer T → Nat → List T → RingBuffer T × List T
  | rb, 0, acc => (rb, acc)
  | rb, l + 1, acc =>
    if rb.count = 0 then (rb, acc)
    else
      let cur := rb.data_buffer.getD (rb.RINGBUF_WRAP rb.output) 0
      if cond cur then
        match behav with
        | CondBehav.cskip =>
          pop_cond_go cond behav { rb with output := (rb.output + 1) % INDEX_MOD } l acc
        | CondBehav.chalt => (rb, acc)
      else
        pop_cond_go cond behav { rb with output := (rb.output + 1) % INDEX_MOD } l
          (acc ++ [cur])

/-- Function `NAME_pop_string_SUFFIX`: early return 0 when empty (again
without terminator), else the conditional loop, then
`dest[ count ] = ( TYPE )0;`. -/
def pop_cstring_cond [Zero T] (rb : RingBuffer T) (limit : Nat)
    (cond : T → Bool) (behav : CondBehav) : RingBuffer T × List T × Nat :=
  if rb.empty then (rb, [], 0)
  else
    let r := pop_cond_go cond behav rb (size_pred limit) []
    (r.1, r.2 ++ [(0 : T)], r.2.length)

end RingBuffer

open RingBuffer

/-- Empty capacity-8 buffer of naturals, no push callback. -/
def rbE8 : RingBuffer Nat := ⟨0, 0, [0, 0, 0, 0, 0, 0, 0, 0], none⟩

/-- Empty capacity-4 buffer of naturals, no push callback. -/
def rbC2a : RingBuffer Nat := ⟨0, 0, [0, 0, 0, 0], none⟩

/-- State after pushing 1 into `rbC2a`. -/
def rbC2b : RingBuffer Nat := (push_front rbC2a 1).1

/-- State after pushing 1, 2 into `rbC2a`. -/
def rbC2c : RingBuffer Nat := (push_front rbC2b 2).1

/-- State after pushing 1, 2, 3 into `rbC2a`. -/
def rbC2d : RingBuffer Nat := (push_front rbC2c 3).1

/-- State after pushing 1, 2, 3, 4 into `rbC2a`: a full capacity-4 buffer. -/
def rbC2e : RingBuffer Nat := (push_front rbC2d 4).1

/-- Capacity-4 buffer of naturals holding the four elements 1, 2, 3, 4
(oldest first), no push callback. -/
def rbABCD : RingBuffer Nat := ⟨4, 0, [1, 2, 3, 4], none⟩

/-- Capacity-4 buffer of naturals holding the three elements 1, 0, 2
(oldest first), no push callback. -/
def rb102 : RingBuffer Nat := ⟨3, 0, [1, 0, 2, 0], none⟩

/-- Empty capacity-4 buffer of naturals, used for the empty-entry
counterexamples. -/
def rbEmpty4 : RingBuffer Nat := ⟨0, 0, [0, 0, 0, 0], none⟩

/-- Capacity-2 buffer of naturals whose oldest element is 0, used to
witness the conditional-pop step properties. -/
def rbZ2 : RingBuffer Nat := ⟨1, 0, [0, 0], none⟩

/-- The `count` function always yields a value below the counter modulus. -/
theorem count_lt_mod {T : Type} (rb : RingBuffer T) : rb.count < INDEX_MOD := by
  rcases rb with ⟨i, o, buf, cb⟩
  simp [RingBuffer.count, INDEX_MOD]
  omega

/-- Advancing `output` by one (modulo the counter width) removes exactly one
element from a non-empty buffer. -/
theorem count_output_succ {T : Type} (rb : RingBuffer T) (h : rb.count ≠ 0) :
    ({ rb with output := (rb.output + 1) % INDEX_MOD } : RingBuffer T).count
      = rb.count - 1 := by
  rcases rb with ⟨i, o, buf, cb⟩
  simp [RingBuffer.count, INDEX_MOD] at h ⊢
  omega

/-- The `empty` test is false when `count` is nonzero. -/
theorem empty_eq_false_of_count {T : Type} (rb : RingBuffer T) (h : rb.count ≠ 0) :
    rb.empty = false := by
  simp only [RingBuffer.empty, beq_eq_false_iff_ne, ne_eq]
  omega

/-- The `empty` test is true when `count` is zero. -/
theorem empty_eq_true_of_count {T : Type} (rb : RingBuffer T) (h : rb.count = 0) :
    rb.empty = true := by
  simp [RingBuffer.empty, h]

/-- Characterization of the shared bulk-pop loop: with `l` permitted
iterations it transfers `min l (count)` elements, oldest first, advancing
`output` accordingly and changing nothing else. -/
theorem pop_go_spec {T : Type} [Zero T] (l : Nat) :
    ∀ (rb : RingBuffer T) (acc : List T), rb.output < INDEX_MOD →
      pop_go rb l acc =
        ({ rb with output := (rb.output + min l rb.count) % INDEX_MOD },
         acc ++ (List.range (min l rb.count)).map
           (fun j => rb.data_buffer.getD (rb.RINGBUF_WRAP ((rb.output + j) % INDEX_MOD)) 0)) := by
  induction l with
  | zero =>
    intro rb acc ho
    simp only [pop_go, Nat.zero_min, List.range_zero, List.map_nil, List.append_nil,
      Nat.add_zero, Nat.mod_eq_of_lt ho]
  | succ l ih =>
    intro rb acc ho
    by_cases h : rb.count = 0
    · simp only [pop_go, h, if_pos, Nat.min_zero, List.range_zero, List.map_nil,
        List.append_nil, Nat.add_zero, Nat.mod_eq_of_lt ho]
    · have ho' : (rb.output + 1) % INDEX_MOD < INDEX_MOD :=
        Nat.mod_lt _ (by decide)
      have hc : ({ rb with output := (rb.output + 1) % INDEX_MOD } : RingBuffer T).count
          = rb.count - 1 := count_output_succ rb h
      have step : pop_go rb (l + 1) acc
          = pop_go { rb with output := (rb.output + 1) % INDEX_MOD } l
              (acc ++ [rb.data_buffer.getD (rb.RINGBUF_WRAP rb.output) 0]) := by
        simp only [pop_go]
        rw [if_neg h]
      rw [step, ih _ _ ho', hc]
      dsimp only
      have hwrap : ∀ x idx : Nat,
          ({ rb with output := x } : RingBuffer T).RINGBUF_WRAP idx
            = rb.RINGBUF_WRAP idx := fun _ _ => rfl
      simp only [hwrap]
      have hm : min (l + 1) rb.count = min l (rb.count - 1) + 1 := by omega
      have hout : ((rb.output + 1) % INDEX_MOD + min l (rb.count - 1)) % INDEX_MOD
          = (rb.output + min (l + 1) rb.count) % INDEX_MOD := by
        rw [Nat.mod_add_mod]
        congr 1
        omega
      have hmap : (List.range (min l (rb.count - 1))).map
            (fun j => rb.data_buffer.getD
              (rb.RINGBUF_WRAP (((rb.output + 1) % INDEX_MOD + j) % INDEX_MOD)) 0)
          = (List.range (min l (rb.count - 1))).map
            ((fun j => rb.data_buffer.getD
              (rb.RINGBUF_WRAP ((rb.output + j) % INDEX_MOD)) 0) ∘ Nat.succ) := by
        refine List.map_congr_left ?_
        intro j hj
        simp only [Function.comp_apply, Nat.mod_add_mod]
        rw [(by omega : rb.output + 1 + j = rb.output + (j + 1))]
      rw [Prod.mk.injEq, RingBuffer.mk.injEq]
      refine ⟨⟨rfl, hout, rfl, rfl⟩, ?_⟩
      rw [hm, List.range_succ_eq_map, List.map_cons, List.map_map,
        List.append_assoc, List.singleton_append, hmap]
      simp only [Nat.add_zero, Nat.mod_eq_of_lt ho, List.cons.injEq]

/-- The conditional bulk-pop loop with a predicate that never matches
behaves exactly like the unconditional loop. -/
theorem pop_cond_go_no_match {T : Type} [Zero T] (behav : CondBehav) (l : Nat) :
    ∀ (rb : RingBuffer T) (acc : List T),
      pop_cond_go (fun _ => false) behav rb l acc = pop_go rb l acc := by
  induction l with
  | zero => intro rb acc; rfl
  | succ l ih =>
    intro rb acc
    by_cases h : rb.count = 0
    · simp [pop_cond_go, pop_go, h]
    · simp [pop_cond_go, pop_go, h, ih]

/-- Masking with a power-of-two capacity not larger than the counter
modulus absorbs the modulus: reducing the index modulo 2^32 first does not
change the masked storage index. -/
theorem wrap_mod_pow {T : Type} (rb : RingBuffer T) (k : Nat) (hk : k ≤ 32)
    (hN : rb.BUFFER_LEN = 2 ^ k) (x : Nat) :
    rb.RINGBUF_WRAP (x % INDEX_MOD) = rb.RINGBUF_WRAP x := by
  simp only [RINGBUF_WRAP, hN, Nat.and_pow_two_sub_one_eq_mod]
  have hI : INDEX_MOD = 2 ^ 32 := by decide
  rw [hI, Nat.mod_mod_of_dvd]
  exact Nat.pow_dvd_pow 2 hk

/-- C1: the claim states that `push_string` transfers elements while the
source has remaining elements and the buffer is not full, i.e.
`min(len, N - count())` elements.  The macro as written tests `full`
instead of `not full`, so on an empty (hence non-full) capacity-8 buffer a
push of four elements transfers nothing and returns 0, where the claim
requires `min(4, 8 - 0) = 4`.  This evaluates the embedded source text at
that failing input. -/
theorem C1_push_string_tests_full_not_nonfull :
    rbE8.full = false ∧ rbE8.count = 0 ∧
    min 4 (rbE8.BUFFER_LEN - rbE8.count) = 4 ∧
    push_string rbE8 [1, 2, 3, 4] 4 = (rbE8, 0) :=
  ⟨by decide, by decide, by decide, rfl⟩

/-- C2: the claim states every operation preserves `0 <= count() <= N` on
reachable states.  The state reached from a fresh capacity-4 buffer by four
successful pushes is full (`count = 4 = N`); on it the source text of
`push_string` (whose loop runs precisely while the buffer IS full) stores
one more element and advances `input`, yielding `count = 5 > 4 = N`,
violating the invariant the claim asserts. -/
theorem C2_push_string_violates_count_bound :
    ((push_front rbC2a 1).2 = true ∧ (push_front rbC2b 2).2 = true
      ∧ (push_front rbC2c 3).2 = true ∧ (push_front rbC2d 4).2 = true)
    ∧ rbC2e.count = rbC2e.BUFFER_LEN
    ∧ rbC2e.BUFFER_LEN = 4
    ∧ (push_string rbC2e [9] 1).2 = 1
    ∧ (push_string rbC2e [9] 1).1.count = 5
    ∧ ¬ (push_string rbC2e [9] 1).1.count ≤ (push_string rbC2e [9] 1).1.BUFFER_LEN := by
  decide

/-- C5: `pop_back` fails on an empty buffer leaving the whole state (in
particular `input` and `output`) unchanged; on a non-empty buffer it only
advances `output` by one (modulo the counter width) and returns true,
leaving `input` and the storage contents untouched. -/
theorem C5_pop_back_spec {T : Type} (rb : RingBuffer T) :
    (rb.empty = true → rb.pop_back = (rb, false)) ∧
    (rb.empty = false → rb.pop_back
        = ({ rb with output := (rb.output + 1) % INDEX_MOD }, true)) := by
  constructor <;> intro h <;> simp [pop_back, h]

/-- Witness for C5 at a concrete non-empty buffer. -/
theorem C5_pop_back_witness :
    rbABCD.empty = false ∧
    rbABCD.pop_back = ({ rbABCD with output := (rbABCD.output + 1) % INDEX_MOD }, true) :=
  ⟨by decide, (C5_pop_back_spec rbABCD).2 (by decide)⟩

/-- C6: `peek` returns the element at `storage[(output + offset) & (N-1)]`
when `offset < count()` and none otherwise, for any power-of-two capacity
that fits the 32-bit counters.  The embedding of `peek` is a pure function
of the buffer, so it mutates no state by construction. -/
theorem C6_peek_spec {T : Type} [Zero T] (rb : RingBuffer T) (offset k : Nat)
    (hk : k ≤ 32) (hN : rb.BUFFER_LEN = 2 ^ k) :
    rb.peek offset = if offset < rb.count
      then some (rb.data_buffer.getD (rb.RINGBUF_WRAP (rb.output + offset)) 0)
      else none := by
  unfold peek
  rw [wrap_mod_pow rb k hk hN]

/-- Witness for C6 at a concrete buffer of capacity 4 = 2^2 and offset 1. -/
theorem C6_peek_witness :
    2 ≤ 32 ∧ rbABCD.BUFFER_LEN = 2 ^ 2 ∧
    rbABCD.peek 1 = if 1 < rbABCD.count
      then some (rbABCD.data_buffer.getD (rbABCD.RINGBUF_WRAP (rbABCD.output + 1)) 0)
      else none :=
  ⟨by decide, by decide, C6_peek_spec rbABCD 1 2 (by decide) (by decide)⟩

/-- C3 counterexample: on a buffer that is empty on entry,
`pop_cstring_cond` returns 0 without writing anything into `dest` — in
particular no terminator — whereas the claim requires the write list
`[0]` (zero transferred elements plus a terminator at `dest[0]`). -/
theorem C3_empty_entry_writes_no_terminator :
    rbEmpty4.count = 0 ∧
    (rbEmpty4.pop_cstring_cond 3 (fun v => v == 0) CondBehav.cskip).2.1 = ([] : List Nat) ∧
    (rbEmpty4.pop_cstring_cond 3 (fun v => v == 0) CondBehav.cskip).2.1 ≠ [0] :=
  ⟨by decide, by decide, by decide⟩

/-- C3 amended: whenever the buffer is non-empty on entry, a zero-valued
terminator is written at `dest[count_transferred]` after the loop ends,
however it ended; when the buffer is empty on entry the function returns 0
without writing anything to `dest`. -/
theorem C3_terminator_iff_nonempty {T : Type} [Zero T] (rb : RingBuffer T)
    (limit : Nat) (cond : T → Bool) (behav : CondBehav) :
    (rb.count ≠ 0 →
      ∃ ts : List T,
        (rb.pop_cstring_cond limit cond behav).2.1 = ts ++ [(0 : T)] ∧
        (rb.pop_cstring_cond limit cond behav).2.2 = ts.length)
    ∧ (rb.count = 0 → rb.pop_cstring_cond limit cond behav = (rb, [], 0)) := by
  constructor
  · intro h
    have he := empty_eq_false_of_count rb h
    refine ⟨(pop_cond_go cond behav rb (size_pred limit) []).2, ?_, ?_⟩ <;>
      simp [pop_cstring_cond, he]
  · intro h
    simp [pop_cstring_cond, empty_eq_true_of_count rb h]

/-- Witness for the amended C3 at a concrete non-empty buffer. -/
theorem C3_terminator_witness :
    rb102.count ≠ 0 ∧
    ∃ ts : List Nat,
      (rb102.pop_cstring_cond 5 (fun v => v == 0) CondBehav.cskip).2.1 = ts ++ [0] ∧
      (rb102.pop_cstring_cond 5 (fun v => v == 0) CondBehav.cskip).2.2 = ts.length :=
  ⟨by decide,
    (C3_terminator_iff_nonempty rb102 5 (fun v => v == 0) CondBehav.cskip).1 (by decide)⟩

/-- C4: `push_front` returns false exactly when the buffer is full or the
installed strategy rejects the value; on failure `input` is unchanged, on
success `input` advances by exactly one (modulo the counter width); the
`output` cursor is never touched; and with no strategy installed and the
buffer not full the value is stored at `storage[input & (N-1)]` and the
push succeeds. -/
theorem C4_push_front_spec {T : Type} (rb : RingBuffer T) (v : T) :
    ((rb.push_front v).2 = false ↔
      (rb.full = true ∨ ∃ cb, rb.push_callback = some cb
        ∧ (cb rb.input rb.output rb.data_buffer v).2 = false))
    ∧ ((rb.push_front v).2 = false → (rb.push_front v).1.input = rb.input)
    ∧ ((rb.push_front v).2 = true → (rb.push_front v).1.input = (rb.input + 1) % INDEX_MOD)
    ∧ (rb.push_front v).1.output = rb.output
    ∧ (rb.full = false → rb.push_callback = none →
        rb.push_front v
          = ({ rb with
                data_buffer := rb.data_buffer.set (rb.RINGBUF_WRAP rb.input) v,
                input := (rb.input + 1) % INDEX_MOD }, true)) := by
  by_cases hf : rb.full = true
  · simp [push_front, hf]
  · rcases hcb : rb.push_callback with _ | cb
    · simp [push_front, hf, hcb]
    · cases hr : (cb rb.input rb.output rb.data_buffer v).2 with
      | false => simp [push_front, hf, hcb, hr]
      | true => simp [push_front, hf, hcb, hr]

/-- Witness for C4: a push into a concrete non-full buffer without a
strategy succeeds and advances `input` by one. -/
theorem C4_push_front_witness :
    (rbC2a.push_front 7).2 = true ∧
    (rbC2a.push_front 7).1.input = (rbC2a.input + 1) % INDEX_MOD :=
  ⟨by decide, (C4_push_front_spec rbC2a 7).2.2.1 (by decide)⟩

/-- C7: `pop_string` transfers exactly `min limit (count())` elements into
`dest`, oldest first in FIFO order, copied verbatim from storage, advances
`output` by that many, returns that number, and appends no terminator
(the write list is exactly the transferred elements). -/
theorem C7_pop_string_spec {T : Type} [Zero T] (rb : RingBuffer T) (limit : Nat)
    (ho : rb.output < INDEX_MOD) :
    rb.pop_string limit =
      ({ rb with output := (rb.output + min limit rb.count) % INDEX_MOD },
       (List.range (min limit rb.count)).map
         (fun j => rb.data_buffer.getD (rb.RINGBUF_WRAP ((rb.output + j) % INDEX_MOD)) 0),
       min limit rb.count) := by
  by_cases h : rb.count = 0
  · simp [pop_string, empty_eq_true_of_count rb h, h, Nat.mod_eq_of_lt ho]
  · have he : ¬ rb.empty = true := by
      rw [empty_eq_false_of_count rb h]
      simp
    unfold pop_string
    rw [if_neg he, pop_go_spec limit rb [] ho]
    simp

/-- Witness for C7 at a concrete buffer holding four elements. -/
theorem C7_pop_string_witness :
    rbABCD.output < INDEX_MOD ∧
    rbABCD.pop_string 10 =
      ({ rbABCD with output := (rbABCD.output + min 10 rbABCD.count) % INDEX_MOD },
       (List.range (min 10 rbABCD.count)).map
         (fun j => rbABCD.data_buffer.getD (rbABCD.RINGBUF_WRAP ((rbABCD.output + j) % INDEX_MOD)) 0),
       min 10 rbABCD.count) :=
  ⟨by decide, C7_pop_string_spec rbABCD 10 (by decide)⟩

/-- C8 counterexample: on a buffer that is empty on entry, `pop_cstring`
returns 0 without writing anything into `dest`, whereas the claim (for
every buffer state) requires a terminator write at `dest[0]`, i.e. the
write list `[0]`. -/
theorem C8_empty_entry_writes_no_terminator :
    rbEmpty4.count = 0 ∧
    (rbEmpty4.pop_cstring 3).2.1 = ([] : List Nat) ∧
    (rbEmpty4.pop_cstring 3).2.1 ≠ [0] :=
  ⟨by decide, by decide, by decide⟩

/-- C8 amended: when the buffer is non-empty on entry and `limit >= 1`,
`pop_cstring` transfers exactly `min (limit - 1) (count())` elements,
oldest first, then writes a zero terminator at `dest[count_transferred]`
and returns the transfer count (when empty on entry it returns 0 and
writes nothing; `limit = 0` wraps, see C10). -/
theorem C8_pop_cstring_spec {T : Type} [Zero T] (rb : RingBuffer T) (limit : Nat)
    (h : rb.count ≠ 0) (hl : 1 ≤ limit) (ho : rb.output < INDEX_MOD) :
    rb.pop_cstring limit =
      ({ rb with output := (rb.output + min (limit - 1) rb.count) % INDEX_MOD },
       ((List.range (min (limit - 1) rb.count)).map
         (fun j => rb.data_buffer.getD (rb.RINGBUF_WRAP ((rb.output + j) % INDEX_MOD)) 0))
         ++ [(0 : T)],
       min (limit - 1) rb.count) := by
  have he : ¬ rb.empty = true := by
    rw [empty_eq_false_of_count rb h]
    simp
  have hsp : size_pred limit = limit - 1 := by
    unfold size_pred
    rw [if_neg (by omega)]
  unfold pop_cstring
  rw [if_neg he, hsp, pop_go_spec (limit - 1) rb [] ho]
  simp

/-- Witness for the amended C8: the claim example itself, a buffer holding
[1,2,3,4] popped with limit 3 transfers two elements and terminates the
output, yielding writes [1,2,0]. -/
theorem C8_pop_cstring_witness :
    rbABCD.count ≠ 0 ∧ 1 ≤ 3 ∧ rbABCD.output < INDEX_MOD ∧
    rbABCD.pop_cstring 3 =
      ({ rbABCD with output := (rbABCD.output + min (3 - 1) rbABCD.count) % INDEX_MOD },
       ((List.range (min (3 - 1) rbABCD.count)).map
         (fun j => rbABCD.data_buffer.getD (rbABCD.RINGBUF_WRAP ((rbABCD.output + j) % INDEX_MOD)) 0))
         ++ [(0 : Nat)],
       min (3 - 1) rbABCD.count) ∧
    (rbABCD.pop_cstring 3).2.1 = [1, 2, 0] ∧ (rbABCD.pop_cstring 3).2.2 = 2 :=
  ⟨by decide, by decide, by decide,
    C8_pop_cstring_spec rbABCD 3 (by decide) (by decide) (by decide),
    by decide, by decide⟩

/-- C9: in `pop_cstring_cond`, when the predicate holds of the current
oldest element, the skip behaviour (`continue`) consumes the element
(advances `output`) without copying it and goes on with the loop, while
the halt behaviour (`break`) stops at once, neither consuming nor copying;
and on the concrete contents [1,0,2] with predicate "value equals zero"
and skip, the writes are [1,2] plus terminator, two elements are reported
transferred, and all three source elements are consumed (final count 0). -/
theorem C9_cond_skip_and_halt :
    (∀ (T : Type) [Zero T] (cond : T → Bool) (rb : RingBuffer T) (l : Nat) (acc : List T),
      rb.count ≠ 0 →
      cond (rb.data_buffer.getD (rb.RINGBUF_WRAP rb.output) 0) = true →
      pop_cond_go cond CondBehav.cskip rb (l + 1) acc
        = pop_cond_go cond CondBehav.cskip
            { rb with output := (rb.output + 1) % INDEX_MOD } l acc)
    ∧ (∀ (T : Type) [Zero T] (cond : T → Bool) (rb : RingBuffer T) (l : Nat) (acc : List T),
      rb.count ≠ 0 →
      cond (rb.data_buffer.getD (rb.RINGBUF_WRAP rb.output) 0) = true →
      pop_cond_go cond CondBehav.chalt rb (l + 1) acc = (rb, acc))
    ∧ (rb102.pop_cstring_cond 10 (fun v => v == 0) CondBehav.cskip).2.1 = [1, 2, 0]
    ∧ (rb102.pop_cstring_cond 10 (fun v => v == 0) CondBehav.cskip).2.2 = 2
    ∧ (rb102.pop_cstring_cond 10 (fun v => v == 0) CondBehav.cskip).1.output = 3
    ∧ (rb102.pop_cstring_cond 10 (fun v => v == 0) CondBehav.cskip).1.count = 0 := by
  refine ⟨?_, ?_, by decide, by decide, by decide, by decide⟩
  · intro T instZ cond rb l acc h hcond
    simp only [List.getD_eq_getElem?_getD] at hcond
    simp [pop_cond_go, h, hcond]
  · intro T instZ cond rb l acc h hcond
    simp only [List.getD_eq_getElem?_getD] at hcond
    simp [pop_cond_go, h, hcond]

/-- Witness for C9: the two step properties applied at a concrete buffer
whose oldest element is zero, with the matching predicate. -/
theorem C9_cond_witness :
    rbZ2.count ≠ 0 ∧
    ((fun v : Nat => v == 0) (rbZ2.data_buffer.getD (rbZ2.RINGBUF_WRAP rbZ2.output) 0)
      = true) ∧
    pop_cond_go (fun v : Nat => v == 0) CondBehav.cskip rbZ2 5 []
      = pop_cond_go (fun v : Nat => v == 0) CondBehav.cskip
          { rbZ2 with output := (rbZ2.output + 1) % INDEX_MOD } 4 [] ∧
    pop_cond_go (fun v : Nat => v == 0) CondBehav.chalt rbZ2 5 [] = (rbZ2, []) :=
  ⟨by decide, by decide,
    C9_cond_skip_and_halt.1 Nat (fun v : Nat => v == 0) rbZ2 4 [] (by decide) (by decide),
    C9_cond_skip_and_halt.2.1 Nat (fun v : Nat => v == 0) rbZ2 4 [] (by decide) (by decide)⟩

/-- C10: on a non-empty buffer, `pop_cstring` with `limit = 0` wraps the
unsigned pre-decrement to the maximum `size_t` value, so the call
transfers all `count()` buffered elements, then writes a terminator at
`dest[count()]`, writing `count() + 1` elements through `dest` in total;
`pop_cstring_cond` shares the same wrapping loop (with a never-matching
predicate it performs the identical transfer). -/
theorem C10_limit_zero_wraps {T : Type} [Zero T] (rb : RingBuffer T)
    (h : rb.count ≠ 0) (ho : rb.output < INDEX_MOD) :
    (rb.pop_cstring 0).2.2 = rb.count ∧
    (rb.pop_cstring 0).2.1 =
      ((List.range rb.count).map
        (fun j => rb.data_buffer.getD (rb.RINGBUF_WRAP ((rb.output + j) % INDEX_MOD)) 0))
        ++ [(0 : T)] ∧
    (rb.pop_cstring 0).2.1.length = rb.count + 1 ∧
    rb.pop_cstring_cond 0 (fun _ => false) CondBehav.cskip = rb.pop_cstring 0 := by
  have he : ¬ rb.empty = true := by
    rw [empty_eq_false_of_count rb h]
    simp
  have hcnt := count_lt_mod rb
  have hmin : min (size_pred 0) rb.count = rb.count := by
    have h1 : INDEX_MOD = 4294967296 := rfl
    have h2 : size_pred 0 = 18446744073709551615 := rfl
    omega
  have hr : pop_go rb (size_pred 0) [] =
      ({ rb with output := (rb.output + rb.count) % INDEX_MOD },
       (List.range rb.count).map
         (fun j => rb.data_buffer.getD (rb.RINGBUF_WRAP ((rb.output + j) % INDEX_MOD)) 0)) := by
    rw [pop_go_spec (size_pred 0) rb [] ho, hmin]
    simp
  refine ⟨?_, ?_, ?_, ?_⟩
  · unfold pop_cstring
    rw [if_neg he, hr]
    simp
  · unfold pop_cstring
    rw [if_neg he, hr]
  · unfold pop_cstring
    rw [if_neg he, hr]
    simp
  · unfold pop_cstring_cond pop_cstring
    rw [if_neg he, if_neg he, pop_cond_go_no_match]

/-- Witness for C10 at a concrete buffer holding four elements. -/
theorem C10_limit_zero_witness :
    rbABCD.count ≠ 0 ∧ rbABCD.output < INDEX_MOD ∧
    ((rbABCD.pop_cstring 0).2.2 = rbABCD.count ∧
     (rbABCD.pop_cstring 0).2.1 =
       ((List.range rbABCD.count).map
         (fun j => rbABCD.data_buffer.getD (rbABCD.RINGBUF_WRAP ((rbABCD.output + j) % INDEX_MOD)) 0))
         ++ [(0 : Nat)] ∧
     (rbABCD.pop_cstring 0).2.1.length = rbABCD.count + 1 ∧
     rbABCD.pop_cstring_cond 0 (fun _ => false) CondBehav.cskip = rbABCD.pop_cstring 0) :=
  ⟨by decide, by decide, C10_limit_zero_wraps rbABCD (by decide) (by decide)⟩

end RingBufferSpec
